import Mathlib

/-!
Verification of the scraping and monitoring core of the Searching_bot
repository (gsz.gov.by vacancy scraper with monitoring scheduler).

The Python sources are shallowly embedded as pure Lean functions:

* `fetchPage` embeds `GszParser._fetch_page` (src/parsers/gsz_parser.py),
  with the sequence of HTTP responses for the successive attempts given
  as a function `Nat → Resp`, and the sleeps it performs recorded in an
  event list.
* `parseVacancies` embeds `GszParser.parse_vacancies`, parameterised over
  a page source (the composition of `_fetch_page` + item splitting +
  `_parse_vacancy_item` for each page number) and the detail fetcher.
* `getTotalPages` embeds `GszParser.get_total_pages` over a small model
  of the fetched first page (pagination links and job-block count).
* `parseVacancyItem` embeds `GszParser._parse_vacancy_item` over a model
  of one `div.job-block` element, including `VacancySchema` validation.
* `checkNewVacancies` embeds the dedup loop of
  `MonitoringService._check_new_vacancies`
  (src/services/monitoring_service.py) over a list-backed store.
* `sendNotifications` embeds `MonitoringService._send_notifications`
  as the list of messages delivered in one tick.
-/

/-! ## String helpers mirroring the Python primitives used by the code -/

/-- Python `str.lower` restricted to the alphabets the code works with:
ASCII letters and the Cyrillic range А..Я (U+0410..U+042F) plus Ё. -/
def pyLowerChar (c : Char) : Char :=
  if 'A' ≤ c ∧ c ≤ 'Z' then Char.ofNat (c.toNat + 32)
  else if 0x410 ≤ c.toNat ∧ c.toNat ≤ 0x42F then Char.ofNat (c.toNat + 0x20)
  else if c.toNat = 0x401 then Char.ofNat 0x451
  else c

/-- Python `str.lower` on a whole string. -/
def pyLower (s : String) : String :=
  String.mk (s.data.map pyLowerChar)

/-- `needle` occurs as a contiguous sublist of `hay`
(Python `needle in hay` on strings, character-list form). -/
def listContainsSub (needle : List Char) : List Char → Bool
  | [] => needle.isEmpty
  | c :: t => needle.isPrefixOf (c :: t) || listContainsSub needle t

/-- Python substring test `needle in hay`. -/
def strContains (needle hay : String) : Bool :=
  listContainsSub needle.data hay.data

/-- Numeric value of a list of decimal digit characters
(Python `int(...)` applied after an `isdigit` check). -/
def digitsVal (l : List Char) : Nat :=
  l.foldl (fun n c => n * 10 + (c.toNat - 48)) 0

/-- Python `str.isdigit` for ASCII decimal strings: nonempty, all digits. -/
def pyIsDigitStr (s : String) : Bool :=
  !s.data.isEmpty && s.data.all Char.isDigit

/-- The whitespace-separated words of a character list (`str.split()`
with no separator: empty tokens dropped). `acc` is the reversed current
word. -/
def pyWordsGo : List Char → List Char → List (List Char)
  | [], acc => if acc.isEmpty then [] else [acc.reverse]
  | c :: t, acc =>
    if Char.isWhitespace c then
      if acc.isEmpty then pyWordsGo t [] else acc.reverse :: pyWordsGo t []
    else pyWordsGo t (c :: acc)

/-- Python `str.strip()`: drop leading and trailing whitespace. -/
def pyStrip (s : String) : String :=
  String.mk
    (((s.data.dropWhile Char.isWhitespace).reverse.dropWhile Char.isWhitespace).reverse)

/-- Python `pre + rest == s` prefix test (`str.startswith`). -/
def strStartsWith (pre s : String) : Bool :=
  pre.data.isPrefixOf s.data

/-- Python `" ".join(text.split())`: split on whitespace, drop empty
tokens, re-join with single spaces (`BaseParser.normalize_text` body). -/
def pySquashWs (s : String) : String :=
  String.intercalate (" ") ((pyWordsGo s.data []).map String.mk)

/-- `BaseParser.normalize_text`: `None` for falsy input, else collapse
whitespace. -/
def normalizeText (t : Option String) : Option String :=
  match t with
  | none => none
  | some s => if s = "" then none else some (pySquashWs s)

/-! ## PageFetcher: `GszParser._fetch_page`

One simulated HTTP response per attempt.  The random User-Agent rotation
and the throttler/rate-limiter waits before the attempt loop do not
affect the returned value or the retry/backoff structure and are not
modelled; the jitter added to backoff sleeps is likewise dropped, the
recorded sleep is the deterministic base amount. -/

/-- One simulated HTTP response (or transport failure) for one attempt. -/
inductive Resp where
  | ok (body : String)
  | notFound
  | tooMany (retryAfter : Option Nat)
  | unavail
  | forbidden
  | other (status : Nat)
  | exn
  deriving DecidableEq, Repr

/-- A sleep performed by the fetcher, tagged by which branch caused it. -/
inductive SleepEv where
  | retryAfter (secs : Nat)
  | backoff503 (secs : Nat)
  | backoff403 (secs : Nat)
  | genBackoff (secs : Nat)
  deriving DecidableEq, Repr

/-- The attempt loop of `_fetch_page` (gsz_parser.py lines 103-164).
`fuel` is the number of attempts remaining including the current one, so
the current attempt is the last one iff `fuel = 1`; `attempt` is the
0-based Python loop index, `resp attempt` the response it receives.
Returns the fetch result together with the list of sleeps performed. -/
def fetchPageGo (resp : Nat → Resp) : Nat → Nat → Option String × List SleepEv
  | 0, _ => (none, [])
  | fuel + 1, attempt =>
    match resp attempt with
    | .ok body => (some body, [])
    | .notFound => (none, [])
    | .tooMany ra =>
      -- 429: sleep Retry-After (default 60) unless last attempt, then
      -- `continue` (the generic backoff at the loop bottom is skipped)
      let pre : List SleepEv :=
        if fuel = 0 then [] else [SleepEv.retryAfter (ra.getD 60)]
      let rest := fetchPageGo resp fuel (attempt + 1)
      (rest.1, pre ++ rest.2)
    | .unavail =>
      -- 503: linear backoff 5*(attempt+1) (+jitter, not modelled), continue
      let pre : List SleepEv :=
        if fuel = 0 then [] else [SleepEv.backoff503 (5 * (attempt + 1))]
      let rest := fetchPageGo resp fuel (attempt + 1)
      (rest.1, pre ++ rest.2)
    | .forbidden =>
      -- 403: backoff 30*(attempt+1), continue
      let pre : List SleepEv :=
        if fuel = 0 then [] else [SleepEv.backoff403 (30 * (attempt + 1))]
      let rest := fetchPageGo resp fuel (attempt + 1)
      (rest.1, pre ++ rest.2)
    | .other _ =>
      -- unexpected status: falls through to generic backoff 2^attempt (+jitter)
      let pre : List SleepEv :=
        if fuel = 0 then [] else [SleepEv.genBackoff (2 ^ attempt)]
      let rest := fetchPageGo resp fuel (attempt + 1)
      (rest.1, pre ++ rest.2)
    | .exn =>
      -- timeout / transport exception: generic backoff unless last attempt
      let pre : List SleepEv :=
        if fuel = 0 then [] else [SleepEv.genBackoff (2 ^ attempt)]
      let rest := fetchPageGo resp fuel (attempt + 1)
      (rest.1, pre ++ rest.2)

/-- `GszParser._fetch_page(url, retries)`: run the attempt loop from
attempt 0; after exhausting all attempts the function returns `None`. -/
def fetchPage (resp : Nat → Resp) (retries : Nat) : Option String × List SleepEv :=
  fetchPageGo resp retries 0

example : fetchPage (fun _ => Resp.notFound) 3 = (none, []) := by decide
example :
    fetchPage (fun i => if i = 0 then Resp.tooMany (some 10) else Resp.ok ("B")) 3
      = (some ("B"), [SleepEv.retryAfter 10]) := by decide
example : fetchPage (fun _ => Resp.exn) 3
    = (none, [SleepEv.genBackoff 1, SleepEv.genBackoff 2]) := by decide

/-! ## Vacancy records and the city/company filters

`Vac` mirrors the dictionary produced by `VacancySchema.model_dump()`
(src/schemas/vacancy.py): required string fields plus optionals.
`date_posted` timestamps are opaque (`Option Nat`); the listing parser
always leaves it `None`. -/

structure Vac where
  external_id : String
  source : String
  date_posted : Option Nat
  company_name : String
  company_address : Option String
  position : String
  vacancies_count : Option Nat
  salary : Option String
  contact_person : Option String
  contact_phone : Option String
  url : Option String
  deriving DecidableEq, Repr

/-- The hard-coded `city_mapping` table of `parse_vacancies`
(gsz_parser.py lines 689-696). -/
def cityMapping (c : String) : Option (List String) :=
  if c = "минск" then some [("минск"), ("г. минск"), ("г минск"), ("минская")]
  else if c = "могилев" then some [("могилев"), ("г. могилев"), ("могилевская")]
  else if c = "гомель" then some [("гомель"), ("г. гомель"), ("гомельская")]
  else if c = "брест" then some [("брест"), ("г. брест"), ("брестская")]
  else if c = "гродно" then some [("гродно"), ("г. гродно"), ("гродненская")]
  else if c = "витебск" then some [("витебск"), ("г. витебск"), ("витебская")]
  else none

/-- The `city_variations` list built from the lowercased filter city
(gsz_parser.py lines 680-699): the base variants plus the mapping row. -/
def cityVariations (c : String) : List String :=
  let base := [c, ("г. ") ++ c, ("г ") ++ c, c ++ ("ая"), c ++ ("ская")]
  match cityMapping c with
  | some extra => base ++ extra
  | none => base

/-- The city-filter match of `parse_vacancies` (lines 672-708): lowercase
both sides, keep the record iff some variation of the filter city is a
substring of the address. -/
def cityMatchesB (city address : String) : Bool :=
  (cityVariations (pyLower city)).any (fun v => strContains v (pyLower address))

/-- Exceptions that can escape the scrape loop body; the `except` clause
at gsz_parser.py lines 763-765 re-raises any of them as `ParserError`. -/
inductive RunErr where
  /-- `AttributeError` from `None.lower()`: the city filter ran on a
  record whose `company_address` is `None` (line 675). -/
  | noneLower
  /-- an exception raised by the supplied progress callback
  (lines 600-601 / 749-751). -/
  | callbackRaised
  deriving DecidableEq, Repr

/-- Python truthiness of an optional string (`if city:` etc.). -/
def optStrTruthy : Option String → Bool
  | none => false
  | some s => s ≠ ""

/-- `if limit and len(vacancies) >= limit:` — `limit` of `None` or `0`
is falsy, otherwise compare. -/
def limitHit (limit : Option Nat) (count : Nat) : Bool :=
  match limit with
  | none => false
  | some l => l ≠ 0 && l ≤ count

/-- Evaluate the city filter on one record (lines 673-713).
`company_address` of `None` raises (`vacancy.get` returns `None`, then
`.lower()` fails); otherwise report whether the record is kept. -/
def cityFilterKeeps (city : String) (v : Vac) : Except RunErr Bool :=
  match v.company_address with
  | none => Except.error RunErr.noneLower
  | some addr => Except.ok (cityMatchesB city addr)

/-- Result of `parse_vacancy_detail`: the optional contact fields it may
recover from a detail page. -/
structure Detail where
  contact_phone : Option String
  contact_person : Option String
  deriving DecidableEq, Repr

/-- Detail enrichment of one accepted record (lines 722-744): merge
truthy contact fields and reset the error counter on success, count an
error on failure. -/
def detailStep (fetchDetail : String → Option Detail) (u : String) (v : Vac)
    (errs : Nat) : Vac × Nat :=
  match fetchDetail u with
  | some d =>
    let v1 := match d.contact_phone with
      | some p => if p ≠ "" then { v with contact_phone := some p } else v
      | none => v
    let v2 := match d.contact_person with
      | some p => if p ≠ "" then { v1 with contact_person := some p } else v1
      | none => v1
    (v2, 0)
  | none => (v, errs + 1)

/-- Arguments of `parse_vacancies` that shape one run. -/
structure ScrapeCfg where
  city : Option String
  company_name : Option String
  limit : Option Nat
  fetch_details : Bool
  filter_by_city : Bool
  parse_all_pages : Bool
  deriving Repr

/-- Mutable state of one `parse_vacancies` run: the accumulator, the
consecutive-empty/failed-page counter and the detail error counter. -/
structure ScrapeState where
  vacancies : List Vac
  detail_errors : Nat
  consecutive_empty : Nat
  deriving DecidableEq, Repr

/-- The inner `for item in vacancy_items:` loop (lines 666-747): per item
check the limit, drop parse failures, apply the city filter (which can
raise), the company filter, optional detail enrichment, and append. -/
def processItems (cfg : ScrapeCfg) (fetchDetail : String → Option Detail) :
    List (Option Vac) → ScrapeState → Except RunErr ScrapeState
  | [], st => Except.ok st
  | item :: rest, st =>
    if limitHit cfg.limit st.vacancies.length then Except.ok st
    else
      match item with
      | none => processItems cfg fetchDetail rest st
      | some v =>
        let keepCity : Except RunErr Bool :=
          if optStrTruthy cfg.city && cfg.filter_by_city then
            cityFilterKeeps (cfg.city.getD ("")) v
          else Except.ok true
        match keepCity with
        | Except.error e => Except.error e
        | Except.ok false => processItems cfg fetchDetail rest st
        | Except.ok true =>
          if optStrTruthy cfg.company_name
              && !strContains (pyLower (cfg.company_name.getD ("")))
                   (pyLower v.company_name) then
            processItems cfg fetchDetail rest st
          else
            let vd :=
              if cfg.fetch_details && optStrTruthy v.url && st.detail_errors < 5 then
                detailStep fetchDetail (v.url.getD ("")) v st.detail_errors
              else (v, st.detail_errors)
            processItems cfg fetchDetail rest
              { st with
                vacancies := st.vacancies ++ [vd.1]
                detail_errors := vd.2 }

/-- The page loop of `parse_vacancies` (lines 615-758).  `fetch page`
models `_fetch_page` + item splitting + `_parse_vacancy_item` on that
page: `none` is a failed fetch, otherwise the per-item parse results.
`fuel` counts the remaining pages (`fuel = 0` means `page` is past
`max_pages_to_try`).  The inter-page sleep is unmodelled. -/
def pagesLoop (cfg : ScrapeCfg)
    (fetch : Nat → Option (List (Option Vac)))
    (fetchDetail : String → Option Detail)
    (progress : Option (Nat → Nat → Nat → Bool))
    (maxPages : Nat) :
    Nat → Nat → ScrapeState → Except RunErr (List Vac)
  | 0, _, st => Except.ok st.vacancies
  | fuel + 1, page, st =>
    if limitHit cfg.limit st.vacancies.length then Except.ok st.vacancies
    else
      match fetch page with
      | none =>
        -- failed fetch: bump the counter, break at 2, else `continue`
        -- (the progress callback is not invoked for this page)
        if st.consecutive_empty + 1 ≥ 2 then Except.ok st.vacancies
        else
          pagesLoop cfg fetch fetchDetail progress maxPages fuel (page + 1)
            { st with consecutive_empty := st.consecutive_empty + 1 }
      | some items =>
        if items.length = 0 ∧ st.consecutive_empty + 1 ≥ 2 then
          Except.ok st.vacancies
        else
          let st1 := { st with consecutive_empty :=
            if items.length = 0 then st.consecutive_empty + 1 else 0 }
          match processItems cfg fetchDetail items st1 with
          | Except.error e => Except.error e
          | Except.ok st2 =>
            match progress with
            | some cb =>
              -- `await progress_callback(page, max_pages_to_try, len(vacancies))`
              -- has no handler of its own: a raise escapes the loop
              if cb page maxPages st2.vacancies.length then
                Except.error RunErr.callbackRaised
              else
                pagesLoop cfg fetch fetchDetail progress maxPages fuel (page + 1) st2
            | none =>
              pagesLoop cfg fetch fetchDetail progress maxPages fuel (page + 1) st2

/-- `GszParser.parse_vacancies` (lines 552-765): initial progress call
(with `total_pages`, the `get_total_pages` result), choice of
`max_pages_to_try` (1000 in monitoring mode, `max(total_pages, 10)` or
10 in search mode), then the page loop from page 1.  A `Bool`-valued
callback entry of `true` means that invocation raises. -/
def parseVacancies (cfg : ScrapeCfg) (total_pages : Nat)
    (fetch : Nat → Option (List (Option Vac)))
    (fetchDetail : String → Option Detail)
    (progress : Option (Nat → Nat → Nat → Bool)) : Except RunErr (List Vac) :=
  let initRaises : Bool := match progress with
    | some cb => cb 0 total_pages 0
    | none => false
  if initRaises then Except.error RunErr.callbackRaised
  else
    let maxPages := if cfg.parse_all_pages then 1000
      else if total_pages > 0 then max total_pages 10 else 10
    pagesLoop cfg fetch fetchDetail progress maxPages maxPages 1
      { vacancies := [], detail_errors := 0, consecutive_empty := 0 }

/-- Configuration used by the monitoring tick (`_check_new_vacancies`
lines 160-169): no limit, no detail fetch, city filtering on, all pages. -/
def monitoringCfg (city company : Option String) : ScrapeCfg :=
  { city := city, company_name := company, limit := none,
    fetch_details := false, filter_by_city := true, parse_all_pages := true }

/-- A detail fetcher that always fails; irrelevant when
`fetch_details = false`. -/
def noDetail : String → Option Detail := fun _ => none

def vacMinsk : Vac :=
  { external_id := "100", source := "gsz.gov.by", date_posted := none,
    company_name := "Org A", company_address := some ("г. Минск, ул. X"),
    position := "монтажник", vacancies_count := none, salary := none,
    contact_person := none, contact_phone := none, url := none }

def vacGomel : Vac :=
  { vacMinsk with
    external_id := "101", company_name := "Org B",
    company_address := some ("г. Гомель") }

example : cityMatchesB ("Минск") ("г. Минск, ул. X") = true := by decide
example : cityMatchesB ("Минск") ("г. Гомель") = false := by decide
example :
    parseVacancies (monitoringCfg none none) 1
      (fun p => if p = 1 then some [some vacMinsk] else some []) noDetail none
      = Except.ok [vacMinsk] := by rfl

/-! ## ListingExtractor: `GszParser.get_total_pages` (lines 276-362)

The fetched first page is modelled by the two features the function
reads: the link list of the first matching pagination container (over
the ordered selector list) if any, and the number of `div.job-block`
elements. -/

/-- One `<a>` inside the pagination control: its text and `href`. -/
structure PageLink where
  text : String
  href : Option String
  deriving DecidableEq, Repr

/-- The parsed first results page, as `get_total_pages` consumes it. -/
structure PageDoc where
  pagination : Option (List PageLink)
  job_blocks : Nat
  deriving Repr

/-- `re.search(r"[?&]page=(\d+)", href)`: first `?page=` / `&page=`
followed by at least one digit; value of the digit run. -/
def pageParamScan : List Char → Option Nat
  | [] => none
  | c :: rest =>
    if (c = '?' || c = '&') && ("page=").data.isPrefixOf rest then
      let ds := (rest.drop 5).takeWhile Char.isDigit
      if ds.isEmpty then pageParamScan rest else some (digitsVal ds)
    else pageParamScan rest

/-- One step of the `for link in page_links:` fold (lines 321-339):
take the link's stripped text if all digits, and any `page=N` parameter
in a truthy href, into the running maximum. -/
def linkMaxStep (m : Nat) (l : PageLink) : Nat :=
  let t := pyStrip l.text
  let m1 := if pyIsDigitStr t then max m (digitsVal t.data) else m
  match l.href with
  | some h =>
    if h ≠ "" then
      match pageParamScan h.data with
      | some n => max m1 n
      | none => m1
    else m1
  | none => m1

/-- `max_page` after scanning all pagination links (starts at 1). -/
def paginationMax (links : List PageLink) : Nat :=
  links.foldl linkMaxStep 1

/-- The job-block fallback (lines 345-358 and the final `return 1`):
a nonempty listing of ≥ 20 blocks probes 10 pages, anything else 1. -/
def jobBlocksFallback (n : Nat) : Nat :=
  if n > 0 then (if n ≥ 20 then 10 else 1) else 1

/-- `GszParser.get_total_pages`: 1 on fetch failure; the pagination
maximum when a control is found *and* that maximum exceeds 1; otherwise
fall through to the job-block fallback. -/
def getTotalPages (page : Option PageDoc) : Nat :=
  match page with
  | none => 1
  | some doc =>
    match doc.pagination with
    | some links =>
      let m := paginationMax links
      if m > 1 then m else jobBlocksFallback doc.job_blocks
    | none => jobBlocksFallback doc.job_blocks

/-- The pagination heuristic as the specification words it: when a
pagination control is found, return the maximum of numeric link texts
and `page=N` href parameters; only when none is found use the ≥ 20
job-block fallback.  (Spec-side definition, for comparison with
`getTotalPages`.) -/
def specTotalPages (page : Option PageDoc) : Nat :=
  match page with
  | none => 1
  | some doc =>
    match doc.pagination with
    | some links => paginationMax links
    | none => if doc.job_blocks ≥ 20 then 10 else 1

/-! ## ListingExtractor: `GszParser._parse_vacancy_item` (lines 434-550)

One `div.job-block` element is modelled by the features the function
reads: the `h4.job-title` element (with its optional `<a>`), the
`li.org` element (with its optional `<a>`), the `span.salary` /
`span.address` texts, and the texts of the `ul.job-info` children. -/

/-- The `<a>` inside `h4.job-title`. -/
structure TitleLink where
  text : String
  href : Option String
  deriving DecidableEq, Repr

/-- One listing item (`div.job-block`). -/
structure ItemDoc where
  /-- `h4.job-title`, when present: its optional `<a>` and its own text. -/
  title : Option (Option TitleLink × String)
  /-- `li.org`, when present: its optional `<a>` text and its own text. -/
  org : Option (Option String × String)
  /-- text of `span.salary`, when present. -/
  salary_span : Option String
  /-- text of `span.address`, when present. -/
  address_span : Option String
  /-- stripped texts of the `li`/`span` children of `ul.job-info`. -/
  job_info : Option (List String)
  deriving Repr

/-- `urljoin` specialised to the parser's base URL
`https://gsz.gov.by` (origin with empty path: absolute refs kept,
root-relative and relative refs resolved against the origin). -/
def urljoinGsz (href : String) : String :=
  if strStartsWith ("http://") href || strStartsWith ("https://") href then href
  else if strStartsWith ("/") href then ("https://gsz.gov.by") ++ href
  else ("https://gsz.gov.by/") ++ href

/-- `re.search(r"/vacancy/(\d+)/", url)`: digits of the first
`/vacancy/<digits>/` segment. -/
def vacancyIdScan : List Char → Option (List Char)
  | [] => none
  | c :: rest =>
    let here : Option (List Char) :=
      if ("/vacancy/").data.isPrefixOf (c :: rest) then
        let after := (c :: rest).drop 9
        let ds := after.takeWhile Char.isDigit
        if !ds.isEmpty && (after.drop ds.length).headD ' ' = '/' then some ds
        else none
      else none
    match here with
    | some ds => some ds
    | none => vacancyIdScan rest

/-- External-id extraction (lines 463-468): default `"unknown"`,
replaced by the digits of a `/vacancy/<digits>/` match in a truthy URL. -/
def extractExternalId (url : Option String) : String :=
  match url with
  | some u =>
    if u ≠ "" then
      match vacancyIdScan u.data with
      | some ds => String.mk ds
      | none => "unknown"
    else "unknown"
  | none => "unknown"

/-- `re.search(r"Ставка:\s*(\d+)", text)` over one job-info text. -/
def stavkaRegexScan : List Char → Option Nat
  | [] => none
  | c :: rest =>
    let here : Option Nat :=
      if ("Ставка:").data.isPrefixOf (c :: rest) then
        let after := (c :: rest).drop (("Ставка:").data.length)
        let ds := (after.dropWhile Char.isWhitespace).takeWhile Char.isDigit
        if ds.isEmpty then none else some (digitsVal ds)
      else none
    match here with
    | some n => some n
    | none => stavkaRegexScan rest

/-- Lines 490-500: the first job-info text containing `"Ставка:"`
decides `vacancies_count` (the loop breaks there even if the digit
pattern then fails). -/
def stavkaFromTexts : List String → Option Nat
  | [] => none
  | t :: rest =>
    if strContains ("Ставка:") t then stavkaRegexScan t.data
    else stavkaFromTexts rest

/-- The `vacancy_data` dictionary built at lines 526-538, before
`VacancySchema` validation. -/
structure RawVac where
  external_id : Option String
  source : Option String
  date_posted : Option Nat
  company_name : Option String
  company_address : Option String
  position : Option String
  vacancies_count : Option Nat
  salary : Option String
  contact_person : Option String
  contact_phone : Option String
  url : Option String
  deriving Repr

/-- `VacancySchema` validation (src/schemas/vacancy.py):
`validate_required_fields` demands each of `external_id`, `source`,
`company_name`, `position` be a string that is nonempty after strip and
stores it stripped; `validate_url` demands a truthy `url` start with
`http://` or `https://`; `vacancies_count` is `ge=0` (vacuous for `Nat`).
A failed validation makes `_parse_vacancy_item` return `None`. -/
def validateVacancy (r : RawVac) : Option Vac :=
  let reqOk : Option String → Bool := fun o =>
    match o with
    | some s => pyStrip s ≠ ""
    | none => false
  let urlOk : Bool :=
    match r.url with
    | some u =>
      !(u ≠ "") || (strStartsWith ("http://") u || strStartsWith ("https://") u)
    | none => true
  if reqOk r.external_id && reqOk r.source && reqOk r.company_name
      && reqOk r.position && urlOk then
    some { external_id := pyStrip (r.external_id.getD ("")),
           source := pyStrip (r.source.getD ("")),
           date_posted := r.date_posted,
           company_name := pyStrip (r.company_name.getD ("")),
           company_address := r.company_address,
           position := pyStrip (r.position.getD ("")),
           vacancies_count := r.vacancies_count,
           salary := r.salary,
           contact_person := r.contact_person,
           contact_phone := r.contact_phone,
           url := r.url }
  else none

/-- `GszParser._parse_vacancy_item`: position/url from the title block,
external id from the url, company from `li.org`, salary/address spans,
`Ставка:` count; drop the item when position or company is falsy, then
validate.  `date_posted` and the contact fields always come out `None`
from a listing (lines 502-520). -/
def parseVacancyItem (item : ItemDoc) : Option Vac :=
  let position : Option String :=
    match item.title with
    | some (link, htext) =>
      normalizeText (some (match link with
        | some l => l.text
        | none => htext))
    | none => none
  let url : Option String :=
    match item.title with
    | some (some l, _) =>
      (match l.href with
       | some h => if h ≠ "" then some (urljoinGsz h) else none
       | none => none)
    | _ => none
  let external_id := extractExternalId url
  let company_name : Option String :=
    match item.org with
    | some (some atext, _) => normalizeText (some atext)
    | some (none, ltext) => normalizeText (some ltext)
    | none => none
  let salary := normalizeText item.salary_span
  let address := normalizeText item.address_span
  let vacancies_count : Option Nat :=
    match item.job_info with
    | some texts => stavkaFromTexts texts
    | none => none
  if optStrTruthy position && optStrTruthy company_name then
    validateVacancy
      { external_id := some external_id, source := some ("gsz.gov.by"),
        date_posted := none, company_name := company_name,
        company_address := address, position := position,
        vacancies_count := vacancies_count, salary := salary,
        contact_person := none, contact_phone := none, url := url }
  else none

/-! ## MonitoringScheduler: dedup and notification batching -/

/-- `VacancyRepository.get_by_external_id_and_source` over a list-backed
store: first record whose key pair matches. -/
def storeLookup (store : List Vac) (eid src : String) : Option Vac :=
  store.find? (fun s => (s.external_id == eid) && (s.source == src))

/-- The dedup loop of `MonitoringService._check_new_vacancies`
(monitoring_service.py lines 176-198): each scraped record is looked up
by `(external_id, source)`; found → silently skipped, not found →
`create`d (committed at once, hence visible to later lookups of the same
tick) and collected as new.  Returns `(final store, new records)`. -/
def checkNewVacancies (store : List Vac) : List Vac → List Vac × List Vac
  | [] => (store, [])
  | v :: rest =>
    match storeLookup store v.external_id v.source with
    | some _ => checkNewVacancies store rest
    | none =>
      let r := checkNewVacancies (store ++ [v]) rest
      (r.1, v :: r.2)

/-- One Telegram message sent by `_send_notifications`: a
single-vacancy detail, a numbered detail `i/n`, or the aggregate
summary for the remainder. -/
inductive Msg where
  | detailSingle (v : Vac)
  | detailNumbered (idx total : Nat) (v : Vac)
  | summary (remaining total : Nat)
  deriving DecidableEq, Repr

/-- `MonitoringService._send_notifications` (lines 240-286): a detail
message for each of `vacancies[:5]` (numbered `i+1/n` unless `n = 1`),
then one summary exactly when `n > 5`, counting the `n - 5` remainder. -/
def sendNotifications (vs : List Vac) : List Msg :=
  ((vs.take 5).enum.map (fun p =>
    if vs.length = 1 then Msg.detailSingle p.2
    else Msg.detailNumbered (p.1 + 1) vs.length p.2))
  ++ (if 5 < vs.length then [Msg.summary (vs.length - 5) vs.length] else [])

def linksExample : List PageLink :=
  [{ text := "1", href := none }, { text := "2", href := none },
   { text := "3", href := none }, { text := "7", href := none }]

example :
    getTotalPages (some { pagination := some linksExample, job_blocks := 20 }) = 7 := by
  decide
example : getTotalPages (some { pagination := none, job_blocks := 20 }) = 10 := by
  decide
example : getTotalPages (some { pagination := none, job_blocks := 5 }) = 1 := by
  decide
example : extractExternalId (some ("https://gsz.gov.by/vacancy/12345/")) = "12345" := by
  decide
example : extractExternalId (some ("https://gsz.gov.by/registration/")) = "unknown" := by
  decide
example : sendNotifications [vacMinsk] = [Msg.detailSingle vacMinsk] := by decide

/-! ## Claims about the fetcher -/

/-- If no attempt in the window receives a 200, the attempt loop ends
with `None`. -/
theorem fetchPageGo_no_ok (resp : Nat → Resp) (fuel attempt : Nat)
    (h : ∀ i, attempt ≤ i → i < attempt + fuel → ∀ b, resp i ≠ Resp.ok b) :
    (fetchPageGo resp fuel attempt).1 = none := by
  induction fuel generalizing attempt with
  | zero => simp [fetchPageGo]
  | succ n ih =>
    have hnext : ∀ i, attempt + 1 ≤ i → i < (attempt + 1) + n → ∀ b, resp i ≠ Resp.ok b :=
      fun i h1 h2 b => h i (by omega) (by omega) b
    cases hr : resp attempt with
    | ok b => exact absurd hr (h attempt le_rfl (by omega) b)
    | notFound => simp [fetchPageGo, hr]
    | tooMany ra => simp [fetchPageGo, hr, ih (attempt + 1) hnext]
    | unavail => simp [fetchPageGo, hr, ih (attempt + 1) hnext]
    | forbidden => simp [fetchPageGo, hr, ih (attempt + 1) hnext]
    | other s => simp [fetchPageGo, hr, ih (attempt + 1) hnext]
    | exn => simp [fetchPageGo, hr, ih (attempt + 1) hnext]

/-- C4: an attempt of `_fetch_page` that receives HTTP 404 returns
`None` immediately — no further attempts and no sleeps from that point —
and when all `retries` attempts complete without ever receiving a 200 or
a 404, `_fetch_page` returns `None`. -/
theorem fetchPage_404_fail_fast_and_exhaustion :
    (∀ (resp : Nat → Resp) (fuel attempt : Nat),
        resp attempt = Resp.notFound →
        fetchPageGo resp (fuel + 1) attempt = (none, []))
    ∧ (∀ (resp : Nat → Resp) (retries : Nat),
        (∀ i, i < retries → (∀ b, resp i ≠ Resp.ok b) ∧ resp i ≠ Resp.notFound) →
        (fetchPage resp retries).1 = none) := by
  constructor
  · intro resp fuel attempt h
    simp [fetchPageGo, h]
  · intro resp retries h
    exact fetchPageGo_no_ok resp retries 0
      (fun i h0 hi b => (h i (by omega)).1 b)

/-- Witness for C4 at concrete inputs: a first-attempt 404 with two
attempts still budgeted, and three non-200/404 attempts. -/
theorem fetchPage_404_fail_fast_and_exhaustion_witness :
    fetchPageGo (fun _ => Resp.notFound) (2 + 1) 0 = (none, [])
    ∧ (fetchPage (fun _ => Resp.exn) 3).1 = none := by
  refine ⟨fetchPage_404_fail_fast_and_exhaustion.1 _ 2 0 rfl,
          fetchPage_404_fail_fast_and_exhaustion.2 _ 3 ?_⟩
  intro i _
  exact ⟨fun b h => by simp at h, by simp⟩

/-- C5: an attempt of `_fetch_page` that receives HTTP 429 sleeps the
`Retry-After` value (default 60) and retries, contributing exactly that
one sleep (no generic exponential backoff for that attempt); when the
429 arrives on the last attempt the sleep is skipped and the fetch ends
`None`; and on the simulated sequence [429 with Retry-After 10, 200] the
fetcher sleeps 10 and returns the 200 body. -/
theorem fetchPage_429_retry_after :
    (∀ (resp : Nat → Resp) (fuel attempt : Nat) (ra : Option Nat),
        resp attempt = Resp.tooMany ra →
        fetchPageGo resp (fuel + 1 + 1) attempt
          = ((fetchPageGo resp (fuel + 1) (attempt + 1)).1,
             SleepEv.retryAfter (ra.getD 60)
               :: (fetchPageGo resp (fuel + 1) (attempt + 1)).2))
    ∧ (∀ (resp : Nat → Resp) (attempt : Nat) (ra : Option Nat),
        resp attempt = Resp.tooMany ra →
        fetchPageGo resp 1 attempt = (none, []))
    ∧ (∀ (body : String),
        fetchPage (fun i => if i = 0 then Resp.tooMany (some 10) else Resp.ok body) 3
          = (some body, [SleepEv.retryAfter 10])) := by
  refine ⟨?_, ?_, ?_⟩
  · intro resp fuel attempt ra h
    simp [fetchPageGo, h]
  · intro resp attempt ra h
    simp [fetchPageGo, h]
  · intro body
    simp [fetchPage, fetchPageGo]

/-- Witness for C5 at concrete inputs. -/
theorem fetchPage_429_retry_after_witness :
    fetchPageGo (fun _ => Resp.tooMany (some 7)) (0 + 1 + 1) 0
      = ((fetchPageGo (fun _ => Resp.tooMany (some 7)) (0 + 1) (0 + 1)).1,
         SleepEv.retryAfter 7
           :: (fetchPageGo (fun _ => Resp.tooMany (some 7)) (0 + 1) (0 + 1)).2)
    ∧ fetchPageGo (fun _ => Resp.tooMany none) 1 5 = (none, [])
    ∧ fetchPage (fun i => if i = 0 then Resp.tooMany (some 10) else Resp.ok ("B")) 3
      = (some ("B"), [SleepEv.retryAfter 10]) :=
  ⟨fetchPage_429_retry_after.1 _ 0 0 (some 7) rfl,
   fetchPage_429_retry_after.2.1 _ 5 none rfl,
   fetchPage_429_retry_after.2.2 ("B")⟩

/-! ## Claims about the monitoring scheduler -/

/-- Is this message the aggregate summary? -/
def isSummaryMsg : Msg → Bool
  | Msg.summary _ _ => true
  | _ => false

/-- C9: on a tick with a nonempty new-record list of length `n`,
`_send_notifications` sends `min 5 n` detail messages plus, exactly when
`n > 5`, one aggregate message counting the remaining `n - 5` — never
more than 6 messages. -/
theorem sendNotifications_batching (vs : List Vac) (_h : vs ≠ []) :
    (sendNotifications vs).length
        = min 5 vs.length + (if 5 < vs.length then 1 else 0)
    ∧ (sendNotifications vs).length ≤ 6
    ∧ (sendNotifications vs).countP isSummaryMsg = (if 5 < vs.length then 1 else 0)
    ∧ (∀ m ∈ sendNotifications vs, isSummaryMsg m = true →
        m = Msg.summary (vs.length - 5) vs.length) := by
  have hlen : (sendNotifications vs).length
      = min 5 vs.length + (if 5 < vs.length then 1 else 0) := by
    simp only [sendNotifications, List.length_append, List.length_map,
      List.enum_length, List.length_take]
    split <;> simp
  refine ⟨hlen, ?_, ?_, ?_⟩
  · rw [hlen]
    have : min 5 vs.length ≤ 5 := min_le_left _ _
    split <;> omega
  · simp only [sendNotifications, List.countP_append]
    have h0 : (((vs.take 5).enum.map (fun p =>
        if vs.length = 1 then Msg.detailSingle p.2
        else Msg.detailNumbered (p.1 + 1) vs.length p.2)).countP isSummaryMsg) = 0 := by
      rw [List.countP_eq_zero]
      intro a ha
      simp only [List.mem_map] at ha
      obtain ⟨p, _, rfl⟩ := ha
      split <;> simp [isSummaryMsg]
    rw [h0]
    split <;> simp [isSummaryMsg]
  · intro m hm hsum
    simp only [sendNotifications, List.mem_append] at hm
    rcases hm with hm | hm
    · simp only [List.mem_map] at hm
      obtain ⟨p, _, rfl⟩ := hm
      revert hsum
      split <;> simp [isSummaryMsg]
    · revert hm
      split
      · intro hm
        simpa using hm
      · intro hm
        simp at hm

/-- Witness for C9: one new record gives one detail message and no
summary. -/
theorem sendNotifications_batching_witness :
    ([vacMinsk] : List Vac) ≠ []
    ∧ ((sendNotifications [vacMinsk]).length
          = min 5 ([vacMinsk] : List Vac).length
            + (if 5 < ([vacMinsk] : List Vac).length then 1 else 0)
       ∧ (sendNotifications [vacMinsk]).length ≤ 6
       ∧ (sendNotifications [vacMinsk]).countP isSummaryMsg
          = (if 5 < ([vacMinsk] : List Vac).length then 1 else 0)
       ∧ (∀ m ∈ sendNotifications [vacMinsk], isSummaryMsg m = true →
            m = Msg.summary (([vacMinsk] : List Vac).length - 5)
                  ([vacMinsk] : List Vac).length)) :=
  ⟨by simp, sendNotifications_batching [vacMinsk] (by simp)⟩

/-- The `(external_id, source)` dedup key of a record. -/
def vacKey (v : Vac) : String × String := (v.external_id, v.source)

/-- The store lookup misses exactly when no stored record carries the
key. -/
theorem storeLookup_eq_none_iff (store : List Vac) (e s : String) :
    storeLookup store e s = none
      ↔ ∀ w ∈ store, ¬(w.external_id = e ∧ w.source = s) := by
  simp [storeLookup, List.find?_eq_none]

/-- Key-list membership from the pointwise mismatch condition. -/
theorem key_not_mem_of_forall (store : List Vac) (e s : String)
    (h : ∀ w ∈ store, ¬(w.external_id = e ∧ w.source = s)) :
    (e, s) ∉ store.map vacKey := by
  intro hmem
  simp only [List.mem_map] at hmem
  obtain ⟨w, hw, hkey⟩ := hmem
  exact h w hw ⟨congrArg Prod.fst hkey, congrArg Prod.snd hkey⟩

/-- `checkNewVacancies` appends exactly its new records to the store. -/
theorem checkNew_store_eq (store l : List Vac) :
    (checkNewVacancies store l).1 = store ++ (checkNewVacancies store l).2 := by
  induction l generalizing store with
  | nil => simp [checkNewVacancies]
  | cons v rest ih =>
    cases hl : storeLookup store v.external_id v.source with
    | some w => simp [checkNewVacancies, hl, ih store]
    | none => simp [checkNewVacancies, hl, ih (store ++ [v])]

/-- The new records of one run have pairwise distinct keys, none of
which is already in the store. -/
theorem checkNew_new_keys (store l : List Vac) :
    (((checkNewVacancies store l).2.map vacKey).Nodup)
    ∧ ∀ k ∈ (checkNewVacancies store l).2.map vacKey, k ∉ store.map vacKey := by
  induction l generalizing store with
  | nil => simp [checkNewVacancies]
  | cons v rest ih =>
    cases hl : storeLookup store v.external_id v.source with
    | some w => simpa [checkNewVacancies, hl] using ih store
    | none =>
      obtain ⟨ihnd, ihdisj⟩ := ih (store ++ [v])
      have hv : vacKey v ∉ store.map vacKey := by
        have h := (storeLookup_eq_none_iff store v.external_id v.source).mp hl
        exact key_not_mem_of_forall store _ _ h
      constructor
      · simp only [checkNewVacancies, hl, List.map_cons, List.nodup_cons]
        refine ⟨?_, ihnd⟩
        intro hmem
        exact ihdisj _ hmem (by simp [vacKey])
      · intro k hk
        simp only [checkNewVacancies, hl, List.map_cons, List.mem_cons] at hk
        rcases hk with rfl | hk
        · exact hv
        · intro hst
          exact ihdisj k hk (by simp [hst])

/-- C1: the monitoring dedup invariant of `_check_new_vacancies`.  With
a duplicate-free store: the run inserts exactly its new records (each
once); every new (= notified) record's key was absent from the store;
new keys are pairwise distinct; after a second run over arbitrary input
the store is still duplicate-free; and no key notified by the first run
is notified again by the second. -/
theorem monitoring_dedup_invariant (store i1 i2 : List Vac)
    (hnd : (store.map vacKey).Nodup) :
    ((checkNewVacancies store i1).1 = store ++ (checkNewVacancies store i1).2)
    ∧ (∀ v ∈ (checkNewVacancies store i1).2, vacKey v ∉ store.map vacKey)
    ∧ (((checkNewVacancies store i1).2.map vacKey).Nodup)
    ∧ ((((checkNewVacancies (checkNewVacancies store i1).1 i2).1).map vacKey).Nodup)
    ∧ (∀ v ∈ (checkNewVacancies store i1).2,
        ∀ w ∈ (checkNewVacancies (checkNewVacancies store i1).1 i2).2,
          vacKey v ≠ vacKey w) := by
  obtain ⟨hnd1, hdisj1⟩ := checkNew_new_keys store i1
  have hstore1 : (checkNewVacancies store i1).1
      = store ++ (checkNewVacancies store i1).2 := checkNew_store_eq store i1
  have hnd1' : (((checkNewVacancies store i1).1).map vacKey).Nodup := by
    rw [hstore1, List.map_append]
    exact List.Nodup.append hnd hnd1 (fun k hk hk2 => hdisj1 k hk2 hk)
  obtain ⟨hnd2, hdisj2⟩ := checkNew_new_keys (checkNewVacancies store i1).1 i2
  have hstore2 : (checkNewVacancies (checkNewVacancies store i1).1 i2).1
      = (checkNewVacancies store i1).1
        ++ (checkNewVacancies (checkNewVacancies store i1).1 i2).2 :=
    checkNew_store_eq _ i2
  refine ⟨hstore1, ?_, hnd1, ?_, ?_⟩
  · intro v hv
    exact hdisj1 (vacKey v) (List.mem_map_of_mem vacKey hv)
  · rw [hstore2, List.map_append]
    exact List.Nodup.append hnd1' hnd2 (fun k hk hk2 => hdisj2 k hk2 hk)
  · intro v hv w hw heq
    have hvk : vacKey v ∈ ((checkNewVacancies store i1).1).map vacKey := by
      rw [hstore1, List.map_append]
      exact List.mem_append_right _ (List.mem_map_of_mem vacKey hv)
    have := hdisj2 (vacKey w) (List.mem_map_of_mem vacKey hw)
    exact this (heq ▸ hvk)

/-- Witness for C1: empty store, the same record scraped twice in run 1
and again in run 2. -/
theorem monitoring_dedup_invariant_witness :
    ((([] : List Vac)).map vacKey).Nodup
    ∧ (((checkNewVacancies [] [vacMinsk, vacMinsk]).1
          = [] ++ (checkNewVacancies [] [vacMinsk, vacMinsk]).2)
       ∧ (∀ v ∈ (checkNewVacancies [] [vacMinsk, vacMinsk]).2,
            vacKey v ∉ ([] : List Vac).map vacKey)
       ∧ (((checkNewVacancies [] [vacMinsk, vacMinsk]).2.map vacKey).Nodup)
       ∧ ((((checkNewVacancies (checkNewVacancies [] [vacMinsk, vacMinsk]).1
              [vacMinsk]).1).map vacKey).Nodup)
       ∧ (∀ v ∈ (checkNewVacancies [] [vacMinsk, vacMinsk]).2,
            ∀ w ∈ (checkNewVacancies (checkNewVacancies [] [vacMinsk, vacMinsk]).1
                    [vacMinsk]).2,
              vacKey v ≠ vacKey w)) :=
  ⟨by simp, monitoring_dedup_invariant [] [vacMinsk, vacMinsk] [vacMinsk] (by simp)⟩

/-- Page loop: past the last page, return the accumulator. -/
theorem pagesLoop_zero (cfg : ScrapeCfg) (fetch : Nat → Option (List (Option Vac)))
    (fd : String → Option Detail) (pr : Option (Nat → Nat → Nat → Bool))
    (mp page : Nat) (st : ScrapeState) :
    pagesLoop cfg fetch fd pr mp 0 page st = Except.ok st.vacancies := rfl

/-- Page loop: a reached item limit stops the run at the page top. -/
theorem pagesLoop_limit (cfg : ScrapeCfg) (fetch : Nat → Option (List (Option Vac)))
    (fd : String → Option Detail) (pr : Option (Nat → Nat → Nat → Bool))
    (mp fuel page : Nat) (st : ScrapeState)
    (hlim : limitHit cfg.limit st.vacancies.length = true) :
    pagesLoop cfg fetch fd pr mp (fuel + 1) page st = Except.ok st.vacancies := by
  simp [pagesLoop, hlim]

/-- Page loop: a first failed fetch bumps the counter and moves on
(without invoking the progress callback). -/
theorem pagesLoop_fail_continue (cfg : ScrapeCfg)
    (fetch : Nat → Option (List (Option Vac))) (fd : String → Option Detail)
    (pr : Option (Nat → Nat → Nat → Bool)) (mp fuel page : Nat) (st : ScrapeState)
    (hlim : limitHit cfg.limit st.vacancies.length = false)
    (hf : fetch page = none) (hce : st.consecutive_empty = 0) :
    pagesLoop cfg fetch fd pr mp (fuel + 1) page st
      = pagesLoop cfg fetch fd pr mp fuel (page + 1)
          { st with consecutive_empty := st.consecutive_empty + 1 } := by
  simp [pagesLoop, hlim, hf, hce]

/-- Page loop: a failed fetch on a counter already at 1 stops the run. -/
theorem pagesLoop_fail_break (cfg : ScrapeCfg)
    (fetch : Nat → Option (List (Option Vac))) (fd : String → Option Detail)
    (pr : Option (Nat → Nat → Nat → Bool)) (mp fuel page : Nat) (st : ScrapeState)
    (hlim : limitHit cfg.limit st.vacancies.length = false)
    (hf : fetch page = none) (hce : st.consecutive_empty + 1 ≥ 2) :
    pagesLoop cfg fetch fd pr mp (fuel + 1) page st = Except.ok st.vacancies := by
  simp [pagesLoop, hlim, hf, hce]

/-- Page loop: a zero-item page on a counter already at 1 stops the run. -/
theorem pagesLoop_empty_break (cfg : ScrapeCfg)
    (fetch : Nat → Option (List (Option Vac))) (fd : String → Option Detail)
    (pr : Option (Nat → Nat → Nat → Bool)) (mp fuel page : Nat) (st : ScrapeState)
    (hlim : limitHit cfg.limit st.vacancies.length = false)
    (hf : fetch page = some []) (hce : st.consecutive_empty + 1 ≥ 2) :
    pagesLoop cfg fetch fd pr mp (fuel + 1) page st = Except.ok st.vacancies := by
  simp [pagesLoop, hlim, hf, hce]

/-- Page loop (no callback): a first zero-item page bumps the counter
and moves on. -/
theorem pagesLoop_empty_continue_none (cfg : ScrapeCfg)
    (fetch : Nat → Option (List (Option Vac))) (fd : String → Option Detail)
    (mp fuel page : Nat) (st : ScrapeState)
    (hlim : limitHit cfg.limit st.vacancies.length = false)
    (hf : fetch page = some []) (hce : st.consecutive_empty = 0) :
    pagesLoop cfg fetch fd none mp (fuel + 1) page st
      = pagesLoop cfg fetch fd none mp fuel (page + 1)
          { st with consecutive_empty := st.consecutive_empty + 1 } := by
  simp [pagesLoop, hlim, hf, hce, processItems]

/-- Page loop (no callback): a page with items resets the counter, runs
the item loop, and moves on. -/
theorem pagesLoop_items_none (cfg : ScrapeCfg)
    (fetch : Nat → Option (List (Option Vac))) (fd : String → Option Detail)
    (mp fuel page : Nat) (st : ScrapeState) (items : List (Option Vac))
    (st2 : ScrapeState)
    (hlim : limitHit cfg.limit st.vacancies.length = false)
    (hf : fetch page = some items) (hne : items.length ≠ 0)
    (hproc : processItems cfg fd items { st with consecutive_empty := 0 }
        = Except.ok st2) :
    pagesLoop cfg fetch fd none mp (fuel + 1) page st
      = pagesLoop cfg fetch fd none mp fuel (page + 1) st2 := by
  simp [pagesLoop, hlim, hf, hne, hproc]

/-- Page loop (with callback): after a page with items the callback runs;
if it raises the loop aborts, else the run continues. -/
theorem pagesLoop_items_cb (cfg : ScrapeCfg)
    (fetch : Nat → Option (List (Option Vac))) (fd : String → Option Detail)
    (cb : Nat → Nat → Nat → Bool) (mp fuel page : Nat) (st : ScrapeState)
    (items : List (Option Vac)) (st2 : ScrapeState)
    (hlim : limitHit cfg.limit st.vacancies.length = false)
    (hf : fetch page = some items) (hne : items.length ≠ 0)
    (hproc : processItems cfg fd items { st with consecutive_empty := 0 }
        = Except.ok st2) :
    pagesLoop cfg fetch fd (some cb) mp (fuel + 1) page st
      = (if cb page mp st2.vacancies.length then Except.error RunErr.callbackRaised
         else pagesLoop cfg fetch fd (some cb) mp fuel (page + 1) st2) := by
  simp [pagesLoop, hlim, hf, hne, hproc]

-- scenario 1 via chaining
/-- One item on page 1, empty pages 2 and 3: the loop breaks after
page 3 holding exactly the page-1 item. -/
theorem scn1_aux (fetch : Nat → Option (List (Option Vac))) (v : Vac)
    (h1 : fetch 1 = some [some v]) (h2 : fetch 2 = some []) (h3 : fetch 3 = some [])
    (fuel mp : Nat) :
    pagesLoop (monitoringCfg none none) fetch noDetail none mp (fuel + 1 + 1 + 1) 1
      { vacancies := [], detail_errors := 0, consecutive_empty := 0 }
      = Except.ok [v] := by
  rw [pagesLoop_items_none (monitoringCfg none none) fetch noDetail mp (fuel + 1 + 1) 1
        { vacancies := [], detail_errors := 0, consecutive_empty := 0 } [some v]
        { vacancies := [v], detail_errors := 0, consecutive_empty := 0 }
        (by simp [monitoringCfg, limitHit]) h1 (by simp)
        (by simp [processItems, monitoringCfg, limitHit, optStrTruthy])]
  rw [pagesLoop_empty_continue_none (monitoringCfg none none) fetch noDetail mp (fuel + 1)
        (1 + 1) { vacancies := [v], detail_errors := 0, consecutive_empty := 0 }
        (by simp [monitoringCfg, limitHit]) (by simpa using h2) rfl]
  rw [pagesLoop_empty_break (monitoringCfg none none) fetch noDetail none mp fuel
        (1 + 1 + 1) { vacancies := [v], detail_errors := 0, consecutive_empty := 0 + 1 }
        (by simp [monitoringCfg, limitHit]) (by simpa using h3) (by simp)]

/-- Page loop: an exception inside the item loop escapes the page loop. -/
theorem pagesLoop_items_error (cfg : ScrapeCfg)
    (fetch : Nat → Option (List (Option Vac))) (fd : String → Option Detail)
    (pr : Option (Nat → Nat → Nat → Bool)) (mp fuel page : Nat) (st : ScrapeState)
    (items : List (Option Vac)) (e : RunErr)
    (hlim : limitHit cfg.limit st.vacancies.length = false)
    (hf : fetch page = some items) (hne : items.length ≠ 0)
    (hproc : processItems cfg fd items { st with consecutive_empty := 0 }
        = Except.error e) :
    pagesLoop cfg fetch fd pr mp (fuel + 1) page st = Except.error e := by
  simp [pagesLoop, hlim, hf, hne, hproc]

/-- Search-mode configuration (`parse_all_pages=False`), no filters. -/
def searchCfg : ScrapeCfg :=
  { city := none, company_name := none, limit := none, fetch_details := false,
    filter_by_city := true, parse_all_pages := false }

/-- Search-mode configuration with an item limit. -/
def searchLimitCfg (l : Nat) : ScrapeCfg := { searchCfg with limit := some l }

/-- Two consecutive failed fetches stop the run with nothing collected. -/
theorem scn2_aux (fetch : Nat → Option (List (Option Vac)))
    (h1 : fetch 1 = none) (h2 : fetch 2 = none) (fuel mp : Nat) :
    pagesLoop (monitoringCfg none none) fetch noDetail none mp (fuel + 1 + 1) 1
      { vacancies := [], detail_errors := 0, consecutive_empty := 0 }
      = Except.ok [] := by
  rw [pagesLoop_fail_continue (monitoringCfg none none) fetch noDetail none mp (fuel + 1)
        1 { vacancies := [], detail_errors := 0, consecutive_empty := 0 }
        (by simp [monitoringCfg, limitHit]) h1 rfl]
  rw [pagesLoop_fail_break (monitoringCfg none none) fetch noDetail none mp fuel
        (1 + 1) { vacancies := [], detail_errors := 0, consecutive_empty := 0 + 1 }
        (by simp [monitoringCfg, limitHit]) (by simpa using h2) (by simp)]

/-- A failed page 1 followed by item pages 2-3 keeps going; the two
failed pages 4-5 stop the run with both items kept. -/
theorem scn3_aux (fetch : Nat → Option (List (Option Vac))) (v w : Vac)
    (h1 : fetch 1 = none) (h2 : fetch 2 = some [some v]) (h3 : fetch 3 = some [some w])
    (h4 : fetch 4 = none) (h5 : fetch 5 = none) (fuel mp : Nat) :
    pagesLoop (monitoringCfg none none) fetch noDetail none mp
      (fuel + 1 + 1 + 1 + 1 + 1) 1
      { vacancies := [], detail_errors := 0, consecutive_empty := 0 }
      = Except.ok [v, w] := by
  rw [pagesLoop_fail_continue (monitoringCfg none none) fetch noDetail none mp
        (fuel + 1 + 1 + 1 + 1) 1
        { vacancies := [], detail_errors := 0, consecutive_empty := 0 }
        (by simp [monitoringCfg, limitHit]) h1 rfl]
  rw [pagesLoop_items_none (monitoringCfg none none) fetch noDetail mp
        (fuel + 1 + 1 + 1) (1 + 1)
        { vacancies := [], detail_errors := 0, consecutive_empty := 0 + 1 } [some v]
        { vacancies := [v], detail_errors := 0, consecutive_empty := 0 }
        (by simp [monitoringCfg, limitHit]) (by simpa using h2) (by simp)
        (by simp [processItems, monitoringCfg, limitHit, optStrTruthy])]
  rw [pagesLoop_items_none (monitoringCfg none none) fetch noDetail mp
        (fuel + 1 + 1) (1 + 1 + 1)
        { vacancies := [v], detail_errors := 0, consecutive_empty := 0 } [some w]
        { vacancies := [v, w], detail_errors := 0, consecutive_empty := 0 }
        (by simp [monitoringCfg, limitHit]) (by simpa using h3) (by simp)
        (by simp [processItems, monitoringCfg, limitHit, optStrTruthy])]
  rw [pagesLoop_fail_continue (monitoringCfg none none) fetch noDetail none mp
        (fuel + 1) (1 + 1 + 1 + 1)
        { vacancies := [v, w], detail_errors := 0, consecutive_empty := 0 }
        (by simp [monitoringCfg, limitHit]) (by simpa using h4) rfl]
  rw [pagesLoop_fail_break (monitoringCfg none none) fetch noDetail none mp fuel
        (1 + 1 + 1 + 1 + 1)
        { vacancies := [v, w], detail_errors := 0, consecutive_empty := 0 + 1 }
        (by simp [monitoringCfg, limitHit]) (by simpa using h5) (by simp)]

/-- With `limit=1`, the first item of page 1 fills the quota and page 2
stops at the top-of-loop limit check. -/
theorem scn4_aux (fetch : Nat → Option (List (Option Vac))) (v : Vac)
    (hf : ∀ p, fetch p = some [some v, some v]) (fuel mp : Nat) :
    pagesLoop (searchLimitCfg 1) fetch noDetail none mp (fuel + 1 + 1) 1
      { vacancies := [], detail_errors := 0, consecutive_empty := 0 }
      = Except.ok [v] := by
  rw [pagesLoop_items_none (searchLimitCfg 1) fetch noDetail mp (fuel + 1) 1
        { vacancies := [], detail_errors := 0, consecutive_empty := 0 }
        [some v, some v]
        { vacancies := [v], detail_errors := 0, consecutive_empty := 0 }
        (by simp [searchLimitCfg, searchCfg, limitHit]) (hf 1) (by simp)
        (by simp [processItems, searchLimitCfg, searchCfg, limitHit, optStrTruthy])]
  rw [pagesLoop_limit (searchLimitCfg 1) fetch noDetail none mp fuel (1 + 1)
        { vacancies := [v], detail_errors := 0, consecutive_empty := 0 }
        (by simp [searchLimitCfg, searchCfg, limitHit])]

/-- When every page yields one item and nothing stops early, the loop
runs its full page budget, collecting one item per page. -/
theorem pagesLoop_all_full (fetch : Nat → Option (List (Option Vac))) (v : Vac)
    (hf : ∀ p, fetch p = some [some v]) (mp : Nat) :
    ∀ fuel page st, pagesLoop searchCfg fetch noDetail none mp fuel page st
        = Except.ok (st.vacancies ++ List.replicate fuel v) := by
  intro fuel
  induction fuel with
  | zero => intro page st; simp [pagesLoop_zero]
  | succ n ih =>
    intro page st
    rw [pagesLoop_items_none searchCfg fetch noDetail mp n page st [some v]
          { vacancies := st.vacancies ++ [v], detail_errors := st.detail_errors,
            consecutive_empty := 0 }
          (by simp [searchCfg, limitHit]) (hf page) (by simp)
          (by simp [processItems, searchCfg, limitHit, optStrTruthy])]
    rw [ih (page + 1) _]
    simp [List.replicate_succ]

/-- C2: the page loop of `parse_vacancies` stops at the first of its
stop conditions: (1) 1 item on page 1 and zero items on pages 2-3 stops
after page 3 with exactly the page-1 item, whatever later pages hold;
(2) two consecutive failed fetches stop the run; (3) one failed fetch
followed by a page with items does not stop the run; (4) a reached item
limit stops the run; (5) otherwise the loop exhausts
`max_pages_to_try` (10 in bounded search mode). -/
theorem parse_stop_conditions :
    (∀ (fetch : Nat → Option (List (Option Vac))) (v : Vac) (tp : Nat),
        fetch 1 = some [some v] → fetch 2 = some [] → fetch 3 = some [] →
        parseVacancies (monitoringCfg none none) tp fetch noDetail none
          = Except.ok [v])
    ∧ (∀ (fetch : Nat → Option (List (Option Vac))) (tp : Nat),
        fetch 1 = none → fetch 2 = none →
        parseVacancies (monitoringCfg none none) tp fetch noDetail none
          = Except.ok [])
    ∧ (∀ (fetch : Nat → Option (List (Option Vac))) (v w : Vac) (tp : Nat),
        fetch 1 = none → fetch 2 = some [some v] → fetch 3 = some [some w] →
        fetch 4 = none → fetch 5 = none →
        parseVacancies (monitoringCfg none none) tp fetch noDetail none
          = Except.ok [v, w])
    ∧ (∀ (fetch : Nat → Option (List (Option Vac))) (v : Vac),
        (∀ p, fetch p = some [some v, some v]) →
        parseVacancies (searchLimitCfg 1) 0 fetch noDetail none = Except.ok [v])
    ∧ (∀ (fetch : Nat → Option (List (Option Vac))) (v : Vac),
        (∀ p, fetch p = some [some v]) →
        parseVacancies searchCfg 0 fetch noDetail none
          = Except.ok (List.replicate 10 v)) := by
  refine ⟨?_, ?_, ?_, ?_, ?_⟩
  · intro fetch v tp h1 h2 h3
    have h := scn1_aux fetch v h1 h2 h3 997 1000
    norm_num at h
    simpa [parseVacancies, monitoringCfg] using h
  · intro fetch tp h1 h2
    have h := scn2_aux fetch h1 h2 998 1000
    norm_num at h
    simpa [parseVacancies, monitoringCfg] using h
  · intro fetch v w tp h1 h2 h3 h4 h5
    have h := scn3_aux fetch v w h1 h2 h3 h4 h5 995 1000
    norm_num at h
    simpa [parseVacancies, monitoringCfg] using h
  · intro fetch v hf
    have h := scn4_aux fetch v hf 8 10
    norm_num at h
    simpa [parseVacancies, searchLimitCfg, searchCfg] using h
  · intro fetch v hf
    have h := pagesLoop_all_full fetch v hf 10 10 1
        { vacancies := [], detail_errors := 0, consecutive_empty := 0 }
    simpa [parseVacancies, searchCfg] using h

/-- Witness for C2 at concrete page sources. -/
theorem parse_stop_conditions_witness :
    parseVacancies (monitoringCfg none none) 0
        (fun p => if p = 1 then some [some vacMinsk] else some []) noDetail none
      = Except.ok [vacMinsk]
    ∧ parseVacancies (monitoringCfg none none) 0 (fun _ => none) noDetail none
      = Except.ok []
    ∧ parseVacancies (monitoringCfg none none) 0
        (fun p => if p = 2 then some [some vacMinsk]
                  else if p = 3 then some [some vacGomel] else none) noDetail none
      = Except.ok [vacMinsk, vacGomel]
    ∧ parseVacancies (searchLimitCfg 1) 0
        (fun _ => some [some vacMinsk, some vacMinsk]) noDetail none
      = Except.ok [vacMinsk]
    ∧ parseVacancies searchCfg 0 (fun _ => some [some vacMinsk]) noDetail none
      = Except.ok (List.replicate 10 vacMinsk) :=
  ⟨parse_stop_conditions.1 _ vacMinsk 0 rfl rfl rfl,
   parse_stop_conditions.2.1 _ 0 rfl rfl,
   parse_stop_conditions.2.2.1 _ vacMinsk vacGomel 0 rfl rfl rfl rfl rfl,
   parse_stop_conditions.2.2.2.1 _ vacMinsk (fun _ => rfl),
   parse_stop_conditions.2.2.2.2 _ vacMinsk (fun _ => rfl)⟩

/-- A callback that raises after page 1 aborts the page loop. -/
theorem cbraise_aux (fetch : Nat → Option (List (Option Vac))) (v : Vac)
    (cb : Nat → Nat → Nat → Bool) (fuel mp : Nat)
    (h1 : fetch 1 = some [some v]) (hcb : cb 1 mp 1 = true) :
    pagesLoop (monitoringCfg none none) fetch noDetail (some cb) mp (fuel + 1) 1
      { vacancies := [], detail_errors := 0, consecutive_empty := 0 }
      = Except.error RunErr.callbackRaised := by
  rw [pagesLoop_items_cb (monitoringCfg none none) fetch noDetail cb mp fuel 1
        { vacancies := [], detail_errors := 0, consecutive_empty := 0 } [some v]
        { vacancies := [v], detail_errors := 0, consecutive_empty := 0 }
        (by simp [monitoringCfg, limitHit]) h1 (by simp)
        (by simp [processItems, monitoringCfg, limitHit, optStrTruthy])]
  simp [hcb]

/-- C3 counterexample: on the same one-item page source, a progress
callback that raises on its first invocation makes `parse_vacancies`
abort with an error (re-raised as `ParserError`), while the identical
run with a non-raising callback completes with the item — the scrape
does not proceed past a raising callback. -/
theorem progress_callback_raise_aborts_run :
    parseVacancies (monitoringCfg none none) 1
        (fun p => if p = 1 then some [some vacMinsk] else some [])
        noDetail (some (fun _ _ _ => true))
      = Except.error RunErr.callbackRaised
    ∧ parseVacancies (monitoringCfg none none) 1
        (fun p => if p = 1 then some [some vacMinsk] else some [])
        noDetail (some (fun _ _ _ => false))
      = Except.ok [vacMinsk] := ⟨rfl, rfl⟩

/-- C3 (amended): an exception raised by the progress callback is not
swallowed: whether it raises at the initial invocation or after a page,
the exception escapes the loop and the whole run aborts as
`ParserError`, discarding accumulated items. -/
theorem progress_callback_error_propagates :
    (∀ (cfg : ScrapeCfg) (tp : Nat) (fetch : Nat → Option (List (Option Vac)))
        (fd : String → Option Detail) (cb : Nat → Nat → Nat → Bool),
        cb 0 tp 0 = true →
        parseVacancies cfg tp fetch fd (some cb) = Except.error RunErr.callbackRaised)
    ∧ (∀ (fetch : Nat → Option (List (Option Vac))) (v : Vac)
        (cb : Nat → Nat → Nat → Bool) (tp : Nat),
        fetch 1 = some [some v] → cb 0 tp 0 = false → cb 1 1000 1 = true →
        parseVacancies (monitoringCfg none none) tp fetch noDetail (some cb)
          = Except.error RunErr.callbackRaised) := by
  constructor
  · intro cfg tp fetch fd cb hcb
    simp [parseVacancies, hcb]
  · intro fetch v cb tp h1 hcb0 hcb1
    have h := cbraise_aux fetch v cb 999 1000 h1 hcb1
    norm_num at h
    simpa [parseVacancies, monitoringCfg, hcb0] using h

/-- Witness for the amended C3 at concrete inputs. -/
theorem progress_callback_error_propagates_witness :
    ((fun _ _ _ => true) : Nat → Nat → Nat → Bool) 0 0 0 = true
    ∧ parseVacancies searchCfg 0 (fun _ => some []) noDetail
        (some (fun _ _ _ => true)) = Except.error RunErr.callbackRaised
    ∧ parseVacancies (monitoringCfg none none) 0
        (fun p => if p = 1 then some [some vacMinsk] else some []) noDetail
        (some (fun pg _ _ => pg == 1)) = Except.error RunErr.callbackRaised :=
  ⟨rfl,
   progress_callback_error_propagates.1 searchCfg 0 _ noDetail _ rfl,
   progress_callback_error_propagates.2 _ vacMinsk _ 0 rfl rfl rfl⟩

/-- Monitoring-style configuration with a `Минск` city filter and
`limit=1`. -/
def cityFilterCfg : ScrapeCfg :=
  { city := some ("Минск"), company_name := none, limit := some 1,
    fetch_details := false, filter_by_city := true, parse_all_pages := true }

/-- City filter: the non-matching record is dropped before the limit
check, the matching one fills the limit. -/
theorem cityscn_aux (fetch : Nat → Option (List (Option Vac))) (v w : Vac)
    (hv : v.company_address = some ("г. Гомель"))
    (hw : w.company_address = some ("г. Минск, ул. X"))
    (hf : fetch 1 = some [some v, some w]) (fuel mp : Nat) :
    pagesLoop cityFilterCfg fetch noDetail none mp (fuel + 1 + 1) 1
      { vacancies := [], detail_errors := 0, consecutive_empty := 0 }
      = Except.ok [w] := by
  rw [pagesLoop_items_none cityFilterCfg fetch noDetail mp (fuel + 1) 1
        { vacancies := [], detail_errors := 0, consecutive_empty := 0 }
        [some v, some w]
        { vacancies := [w], detail_errors := 0, consecutive_empty := 0 }
        (by simp [cityFilterCfg, limitHit]) hf (by simp)
        (by simp [processItems, cityFilterCfg, limitHit, optStrTruthy,
              cityFilterKeeps, hv, hw,
              (by decide : cityMatchesB ("Минск") ("г. Гомель") = false),
              (by decide : cityMatchesB ("Минск") ("г. Минск, ул. X") = true)])]
  rw [pagesLoop_limit cityFilterCfg fetch noDetail none mp fuel (1 + 1)
        { vacancies := [w], detail_errors := 0, consecutive_empty := 0 }
        (by simp [cityFilterCfg, limitHit])]

/-- C6: city-filter matching: `"г. Минск, ул. X"` matches the filter
`"Минск"` and `"г. Гомель"` does not (both sides lowercased, variant
substring match); a record failing the filter is dropped before being
counted toward the limit, so with `limit=1` the later matching record is
the one returned. -/
theorem city_filter_matching :
    cityMatchesB ("Минск") ("г. Минск, ул. X") = true
    ∧ cityMatchesB ("Минск") ("г. Гомель") = false
    ∧ (∀ (v w : Vac) (fetch : Nat → Option (List (Option Vac))) (tp : Nat),
        v.company_address = some ("г. Гомель") →
        w.company_address = some ("г. Минск, ул. X") →
        fetch 1 = some [some v, some w] →
        parseVacancies cityFilterCfg tp fetch noDetail none = Except.ok [w]) := by
  refine ⟨by decide, by decide, ?_⟩
  intro v w fetch tp hv hw hf
  have h := cityscn_aux fetch v w hv hw hf 998 1000
  norm_num at h
  simpa [parseVacancies, cityFilterCfg] using h

/-- Witness for C6 at concrete records. -/
theorem city_filter_matching_witness :
    vacGomel.company_address = some ("г. Гомель")
    ∧ vacMinsk.company_address = some ("г. Минск, ул. X")
    ∧ parseVacancies cityFilterCfg 0
        (fun _ => some [some vacGomel, some vacMinsk]) noDetail none
      = Except.ok [vacMinsk] :=
  ⟨rfl, rfl, city_filter_matching.2.2 vacGomel vacMinsk _ 0 rfl rfl rfl⟩

/-- C7: with an active city filter, a record whose `company_address` is
`None` makes the filter call `.lower()` on `None`; the `AttributeError`
escapes the loop and the whole run aborts as `ParserError`
(`RunErr.noneLower`), losing the already-accumulated matching record
instead of skipping the single bad record. -/
theorem city_filter_none_address_aborts (v u : Vac)
    (fetch : Nat → Option (List (Option Vac))) (tp : Nat)
    (hv : v.company_address = some ("г. Минск, ул. X"))
    (hu : u.company_address = none)
    (hf : fetch 1 = some [some v, some u]) :
    parseVacancies (monitoringCfg (some ("Минск")) none) tp fetch noDetail none
      = Except.error RunErr.noneLower := by
  have h : pagesLoop (monitoringCfg (some ("Минск")) none) fetch noDetail none 1000
      (999 + 1) 1 { vacancies := [], detail_errors := 0, consecutive_empty := 0 }
      = Except.error RunErr.noneLower := by
    apply pagesLoop_items_error (monitoringCfg (some ("Минск")) none) fetch noDetail
      none 1000 999 1 _ [some v, some u] RunErr.noneLower
      (by simp [monitoringCfg, limitHit]) hf (by simp)
    simp [processItems, monitoringCfg, limitHit, optStrTruthy, cityFilterKeeps,
      hv, hu, (by decide : cityMatchesB ("Минск") ("г. Минск, ул. X") = true)]
  norm_num at h
  simpa [parseVacancies, monitoringCfg] using h

/-- A record with no company address. -/
def vacNoAddr : Vac :=
  { vacMinsk with
    external_id := "102", company_name := "Org C", company_address := none }

/-- Witness for C7 at concrete records. -/
theorem city_filter_none_address_aborts_witness :
    vacMinsk.company_address = some ("г. Минск, ул. X")
    ∧ vacNoAddr.company_address = none
    ∧ parseVacancies (monitoringCfg (some ("Минск")) none) 0
        (fun _ => some [some vacMinsk, some vacNoAddr]) noDetail none
      = Except.error RunErr.noneLower :=
  ⟨rfl, rfl, city_filter_none_address_aborts vacMinsk vacNoAddr _ 0 rfl rfl rfl⟩

/-- A first page whose pagination control only links page "1" and which
shows 20 job blocks. -/
def trivialPaginationDoc : PageDoc :=
  { pagination := some [{ text := "1", href := none }], job_blocks := 20 }

/-- C8 counterexample: on a page whose pagination control yields the
maximum 1 (single link "1") but which carries 20 job blocks,
`get_total_pages` returns the job-block fallback 10, not the pagination
maximum 1 the claim prescribes for a found control. -/
theorem pagination_heuristic_counterexample :
    getTotalPages (some trivialPaginationDoc) = 10
    ∧ paginationMax [{ text := "1", href := none }] = 1
    ∧ specTotalPages (some trivialPaginationDoc) = 1 := by
  refine ⟨by decide, by decide, by decide⟩

/-- C8 (amended): `get_total_pages` returns the pagination maximum only
when it exceeds 1; when no pagination control is found **or** the found
control's maximum is 1, it falls through to the job-block fallback
(10 for ≥ 20 blocks, else 1); a failed fetch yields 1; links 1,2,3,7
give 7, twenty blocks with no control give 10, five blocks give 1. -/
theorem pagination_heuristic_amended :
    (∀ (links : List PageLink) (n : Nat), 1 < paginationMax links →
        getTotalPages (some { pagination := some links, job_blocks := n })
          = paginationMax links)
    ∧ (∀ (links : List PageLink) (n : Nat), paginationMax links = 1 →
        getTotalPages (some { pagination := some links, job_blocks := n })
          = jobBlocksFallback n)
    ∧ (∀ n : Nat, getTotalPages (some { pagination := none, job_blocks := n })
          = jobBlocksFallback n)
    ∧ getTotalPages none = 1
    ∧ getTotalPages (some { pagination := some linksExample, job_blocks := 20 }) = 7
    ∧ getTotalPages (some { pagination := none, job_blocks := 20 }) = 10
    ∧ getTotalPages (some { pagination := none, job_blocks := 5 }) = 1 := by
  refine ⟨?_, ?_, ?_, by decide, by decide, by decide, by decide⟩
  · intro links n h
    simp [getTotalPages, h]
  · intro links n h
    simp [getTotalPages, h]
  · intro n
    simp [getTotalPages]

/-- A pagination control with the single numeric link "7". -/
def sevenLinkList : List PageLink := [{ text := "7", href := none }]

/-- Witness for the amended C8 at concrete pages. -/
theorem pagination_heuristic_amended_witness :
    1 < paginationMax sevenLinkList
    ∧ getTotalPages (some { pagination := some sevenLinkList, job_blocks := 0 })
        = paginationMax sevenLinkList
    ∧ paginationMax [] = 1
    ∧ getTotalPages (some { pagination := some [], job_blocks := 20 })
        = jobBlocksFallback 20
    ∧ getTotalPages (some { pagination := none, job_blocks := 3 })
        = jobBlocksFallback 3 :=
  ⟨by decide,
   pagination_heuristic_amended.1 sevenLinkList 0 (by decide),
   by decide,
   pagination_heuristic_amended.2.1 [] 20 (by decide),
   pagination_heuristic_amended.2.2.1 3⟩

/-- A record carrying the `"unknown"` sentinel external id. -/
def vacUnknown : Vac :=
  { vacMinsk with external_id := "unknown" }

/-- A listing item whose `h4.job-title` has no `<a>` (no detail URL). -/
def itemNoLink : ItemDoc :=
  { title := some (none, "Слесарь"), org := some (none, "Завод"),
    salary_span := none, address_span := some ("г. Минск"), job_info := none }

/-- A title link whose href does not match `/vacancy/<digits>/`. -/
def badHrefLink : TitleLink :=
  { text := "Слесарь", href := some ("/registration/vacancy-search/") }

/-- A listing item whose detail URL does not match the id pattern. -/
def itemBadHref : ItemDoc :=
  { title := some (some badHrefLink, "Слесарь"), org := some (none, "Завод"),
    salary_span := none, address_span := none, job_info := none }

/-- C10: a listing item with no title link, or whose detail URL does not
match `/vacancy/<digits>/`, gets the sentinel external id `"unknown"`
rather than being discarded, and the sentinel passes the non-empty-field
validation; hence all such records share the dedup key
`("unknown", "gsz.gov.by")`: within one tick only the first is stored
and notified, and once any record with that key is stored, every later
one is treated as already known. -/
theorem unknown_external_id_dedup :
    extractExternalId none = "unknown"
    ∧ (∀ u : String, u ≠ "" → vacancyIdScan u.data = none →
        extractExternalId (some u) = "unknown")
    ∧ (parseVacancyItem itemNoLink).map (fun r => r.external_id) = some ("unknown")
    ∧ (parseVacancyItem itemBadHref).map (fun r => r.external_id) = some ("unknown")
    ∧ (∀ u1 u2 : Vac,
        u1.external_id = "unknown" → u1.source = "gsz.gov.by" →
        u2.external_id = "unknown" → u2.source = "gsz.gov.by" →
        checkNewVacancies [] [u1, u2] = ([u1], [u1])
        ∧ ∀ store : List Vac, ("unknown", "gsz.gov.by") ∈ store.map vacKey →
            (checkNewVacancies store [u2]).2 = []) := by
  refine ⟨by decide, ?_, by decide, by decide, ?_⟩
  · intro u hne hscan
    simp [extractExternalId, hne, hscan]
  · intro u1 u2 h1 h2 h3 h4
    constructor
    · simp [checkNewVacancies, storeLookup, h1, h2, h3, h4]
    · intro store hmem
      cases hl : storeLookup store u2.external_id u2.source with
      | some w => simp [checkNewVacancies, hl]
      | none =>
        exfalso
        have h := (storeLookup_eq_none_iff store _ _).mp hl
        simp only [List.mem_map] at hmem
        obtain ⟨w, hw, hkey⟩ := hmem
        refine h w hw ⟨?_, ?_⟩
        · rw [h3]
          exact congrArg Prod.fst hkey
        · rw [h4]
          exact congrArg Prod.snd hkey

/-- Witness for C10 at concrete inputs. -/
theorem unknown_external_id_dedup_witness :
    ("https://gsz.gov.by/registration/" : String) ≠ ""
    ∧ vacancyIdScan ("https://gsz.gov.by/registration/").data = none
    ∧ extractExternalId (some ("https://gsz.gov.by/registration/")) = "unknown"
    ∧ (checkNewVacancies [] [vacUnknown, vacUnknown] = ([vacUnknown], [vacUnknown])
       ∧ ∀ store : List Vac, ("unknown", "gsz.gov.by") ∈ store.map vacKey →
           (checkNewVacancies store [vacUnknown]).2 = []) :=
  ⟨by decide, by decide,
   unknown_external_id_dedup.2.1 ("https://gsz.gov.by/registration/")
     (by decide) (by decide),
   unknown_external_id_dedup.2.2.2.2 vacUnknown vacUnknown rfl rfl rfl rfl⟩
